import Mathlib

/-!
Shallow embedding of the supervisory translation layer of the
zhiyu-translator repository: the `TranslationService` request scheduler
(queue, concurrency gate, timeout, cancel, reset, worker restart), the
`RetryService` backoff policy, the `ModelManager` bounded pipeline cache,
and the worker-side `handleTranslateRequest` validation and response
sequence.  JavaScript `Map`s are modelled as insertion-ordered association
lists, `Set`s as duplicate-free lists, and the `x || y` falsy-fallback
idiom by explicit helpers.  Asynchronous behaviour is modelled by a small
step semantics: the synchronous body of each method is one transition,
and every deferred continuation (a `.finally` micro-task, a worker
response, a `setTimeout` callback) is its own transition.
-/

/-- JavaScript `a || b` on an optional number: `undefined` and `0` are
falsy and fall through to `b`. -/
def jsOrNat (a : Option Nat) (b : Nat) : Nat :=
  match a with
  | some x => if x ≠ 0 then x else b
  | none => b

/-- JavaScript `a || b` on an optional integer. -/
def jsOrInt (a : Option Int) (b : Int) : Int :=
  match a with
  | some x => if x ≠ 0 then x else b
  | none => b

/-- JavaScript `a || b` on an optional rational. -/
def jsOrRat (a : Option ℚ) (b : ℚ) : ℚ :=
  match a with
  | some x => if x ≠ 0 then x else b
  | none => b

/-- Truthiness of an optional numeric config field (`undefined` and `0`
are falsy). -/
def jsTruthyNat (o : Option Nat) : Bool :=
  o.getD 0 ≠ 0

/-- `Map.has` on an insertion-ordered association list. -/
def mapHas {α : Type} (m : List (String × α)) (k : String) : Bool :=
  m.any (fun p => p.1 = k)

/-- `Map.set`: overwrite in place when the key is present (insertion
order is preserved), otherwise append at the end. -/
def mapSet {α : Type} (m : List (String × α)) (k : String) (v : α) : List (String × α) :=
  if mapHas m k then m.map (fun p => if p.1 = k then (k, v) else p)
  else m ++ [(k, v)]

/-- `Map.delete` / removal of a key. -/
def mapDelete {α : Type} (m : List (String × α)) (k : String) : List (String × α) :=
  m.filter (fun p => p.1 ≠ k)

/-- `Map.get`. -/
def mapGet {α : Type} (m : List (String × α)) (k : String) : Option α :=
  (m.find? (fun p => p.1 = k)).map Prod.snd

/-- `Set.add` (no duplicates, insertion order kept). -/
def setAdd (s : List String) (x : String) : List String :=
  if x ∈ s then s else s ++ [x]

/-- `Set.delete`. -/
def setDelete (s : List String) (x : String) : List String :=
  s.filter (fun y => y ≠ x)

/-- The `TranslationErrorType` enum of `src/types/errors.ts` (the worker
variant).  Note that it has no `CANCELLED` and no `RESET` member. -/
inductive ErrKind
  | MODEL_LOAD_FAILED
  | MODEL_NOT_FOUND
  | MODEL_INITIALIZATION_FAILED
  | TRANSLATION_FAILED
  | TRANSLATION_TIMEOUT
  | INVALID_INPUT
  | UNSUPPORTED_LANGUAGE_PAIR
  | WORKER_ERROR
  | WORKER_INITIALIZATION_FAILED
  | WORKER_COMMUNICATION_ERROR
  | NETWORK_ERROR
  | MODEL_DOWNLOAD_FAILED
  | UNKNOWN_ERROR
  | INTERNAL_ERROR
  deriving DecidableEq, Repr

/-- `isErrorRecoverable` from `src/utils/errorUtils.ts`: exactly
`NETWORK_ERROR`, `TRANSLATION_TIMEOUT` and `WORKER_ERROR` are
recoverable. -/
def isErrorRecoverable : ErrKind → Bool
  | .NETWORK_ERROR => true
  | .TRANSLATION_TIMEOUT => true
  | .WORKER_ERROR => true
  | _ => false

/-- `ModelConfig` of `ModelManager.ts`. -/
structure MMConfig where
  cacheModels : Bool
  quantized : Bool
  maxCacheSize : Option Nat
  deriving DecidableEq, Repr

/-- The constructor default `{cacheModels: true, quantized: true,
maxCacheSize: 5}`. -/
def defaultMMConfig : MMConfig :=
  { cacheModels := true, quantized := true, maxCacheSize := some 5 }

/-- Mutable state of `ModelManager`: the `pipelines` cache (values are
abstract pipeline tokens), the `activeRequests` abort-controller map
(modelled by the set of request ids holding a live controller) and the
`loadingProgress` table. -/
structure MMState where
  pipelines : List (String × Nat)
  activeRequests : List String
  loadingProgress : List (String × Nat)
  deriving DecidableEq, Repr

/-- Fresh `ModelManager` state. -/
def mmInit : MMState :=
  { pipelines := [], activeRequests := [], loadingProgress := [] }

/-- The cache key `` `${task}-${model}${quantized ? '-quantized' : ''}` ``. -/
def pipelineKey (task model : String) (quantized : Bool) : String :=
  task ++ "-" ++ model ++ (if quantized then "-quantized" else "")

/-- Environment outcome of the `await pipeline(task, model, options)`
call inside `getPipeline`: a successful load of a pipeline token, a load
failure, or an abort observed by the load. -/
inductive LoadOutcome
  | success (v : Nat)
  | failure
  | aborted
  deriving DecidableEq, Repr

/-- Errors `getPipeline` can throw: a rethrown `AbortError`, or the
`TranslationException` with type `MODEL_LOAD_FAILED`. -/
inductive MMErr
  | abortError
  | modelLoadFailed
  deriving DecidableEq, Repr

/-- `ModelManager.addToCache`: when `maxCacheSize` is truthy and the
cache has reached it, delete the oldest inserted key
(`pipelines.keys().next().value`, the first entry of the insertion-ordered
map), then insert the new entry at the end.  A deliberate FIFO policy:
reads never reorder the map. -/
def addToCache (cfg : MMConfig) (pipelines : List (String × Nat)) (key : String) (v : Nat) :
    List (String × Nat) :=
  let p :=
    if jsTruthyNat cfg.maxCacheSize ∧ cfg.maxCacheSize.getD 0 ≤ pipelines.length then
      match pipelines with
      | [] => ([] : List (String × Nat))
      | (k0, _) :: _ => mapDelete pipelines k0
    else pipelines
  mapSet p key v

/-- `ModelManager.getPipeline`: register an abort controller for
`requestId`; if the key is cached and caching is enabled, drop the
controller and return the cached pipeline; otherwise track loading
progress, run the load, cache the result when caching is enabled, and in
every branch (`finally`) drop the controller.  The load itself is the
environment-chosen `out`. -/
def getPipeline (cfg : MMConfig) (st : MMState) (task model requestId : String)
    (out : LoadOutcome) : MMState × Except MMErr Nat :=
  let key := pipelineKey task model cfg.quantized
  let st1 : MMState := { st with activeRequests := setAdd st.activeRequests requestId }
  if mapHas st1.pipelines key ∧ cfg.cacheModels then
    ({ st1 with activeRequests := setDelete st1.activeRequests requestId },
      Except.ok ((mapGet st1.pipelines key).getD 0))
  else
    let lp0 := mapSet st1.loadingProgress key 0
    match out with
    | .success v =>
        let pls := if cfg.cacheModels then addToCache cfg st1.pipelines key v else st1.pipelines
        ({ pipelines := pls,
           activeRequests := setDelete st1.activeRequests requestId,
           loadingProgress := mapDelete lp0 key }, Except.ok v)
    | .aborted =>
        ({ st1 with activeRequests := setDelete st1.activeRequests requestId,
                    loadingProgress := mapDelete lp0 key }, Except.error MMErr.abortError)
    | .failure =>
        ({ st1 with activeRequests := setDelete st1.activeRequests requestId,
                    loadingProgress := mapDelete lp0 key }, Except.error MMErr.modelLoadFailed)

/-- `ModelManager.cancelRequest`: abort and remove the controller if one
is registered for the id, reporting whether one was found. -/
def cancelRequest (st : MMState) (requestId : String) : MMState × Bool :=
  if requestId ∈ st.activeRequests then
    ({ st with activeRequests := setDelete st.activeRequests requestId }, true)
  else (st, false)

/-- `ModelManager.removeFromCache`. -/
def removeFromCache (cfg : MMConfig) (st : MMState) (task model : String) : MMState × Bool :=
  let key := pipelineKey task model cfg.quantized
  ({ st with pipelines := mapDelete st.pipelines key }, mapHas st.pipelines key)

/-- `ModelManager.clearCache`. -/
def clearCache (st : MMState) : MMState :=
  { st with pipelines := [] }

/-- `ModelManager.getCacheSize`. -/
def getCacheSize (st : MMState) : Nat :=
  st.pipelines.length

/-- One call of `getPipeline` as data (for quantifying over sequences of
cache operations). -/
structure GPCall where
  task : String
  model : String
  requestId : String
  out : LoadOutcome
  deriving DecidableEq, Repr

/-- Run a list of `getPipeline` calls, keeping only the state. -/
def runCalls (cfg : MMConfig) (calls : List GPCall) (st : MMState) : MMState :=
  calls.foldl (fun s c => (getPipeline cfg s c.task c.model c.requestId c.out).1) st

/-- A cache-affecting `ModelManager` operation. -/
inductive CacheOp
  | getP (task model requestId : String) (out : LoadOutcome)
  | remove (task model : String)
  | clear
  deriving DecidableEq, Repr

/-- Apply one cache operation. -/
def applyCacheOp (cfg : MMConfig) (st : MMState) : CacheOp → MMState
  | .getP t m r o => (getPipeline cfg st t m r o).1
  | .remove t m => (removeFromCache cfg st t m).1
  | .clear => clearCache st

/-- Apply a sequence of cache operations. -/
def applyCacheOps (cfg : MMConfig) (ops : List CacheOp) (st : MMState) : MMState :=
  ops.foldl (applyCacheOp cfg) st

/-- `RetryOptions` of `RetryService.ts`.  `shouldRetryFn` is the optional
custom retry predicate. -/
structure RetryOptions where
  maxRetries : Nat
  retryDelay : ℚ
  retryMultiplier : ℚ
  maxDelay : Option ℚ
  shouldRetryFn : Option (ErrKind → Bool)

/-- `DEFAULT_RETRY_OPTIONS`: `{maxRetries: 3, retryDelay: 1000,
retryMultiplier: 1.5, maxDelay: 10000}`. -/
def defaultRetryOptions : RetryOptions :=
  { maxRetries := 3, retryDelay := 1000, retryMultiplier := 3/2,
    maxDelay := some 10000, shouldRetryFn := none }

/-- `Number.MAX_SAFE_INTEGER`. -/
def maxSafeInteger : ℚ := 2 ^ 53 - 1

/-- `RetryService.calculateDelay`: exponential backoff
`retryDelay * retryMultiplier^(attempt-1)` plus the jitter addend
(`Math.random() * 300` in the source, here an explicit parameter),
capped at `maxDelay || Number.MAX_SAFE_INTEGER`. -/
def calculateDelay (attempt : Nat) (o : RetryOptions) (jitter : ℚ) : ℚ :=
  min (o.retryDelay * o.retryMultiplier ^ (attempt - 1) + jitter) (jsOrRat o.maxDelay maxSafeInteger)

/-- `RetryService.shouldRetry`: no retry once `attempt > maxRetries`;
otherwise the custom predicate when given, else the default
`isErrorRecoverable` lookup on the error kind. -/
def shouldRetryJudge (o : RetryOptions) (e : ErrKind) (attempt : Nat) : Bool :=
  if o.maxRetries < attempt then false
  else
    match o.shouldRetryFn with
    | some f => f e
    | none => isErrorRecoverable e

/-- The `while (attempt <= maxRetries)` loop of `RetryService.withRetry`.
`fn n` is the outcome of the call made while `attempt = n`; `js n` is the
jitter drawn for the delay after the n-th failure.  The loop guard is
carried as the fuel `maxRetries + 1 - attempt`.  Returns the final
outcome (`Except.error last` models `throw lastError`) together with the
list of back-off delays that were waited, in order. -/
def retryLoop {α : Type} (fn : Nat → Except ErrKind α) (o : RetryOptions) (js : Nat → ℚ) :
    Nat → Nat → List ℚ → Option ErrKind → Except (Option ErrKind) α × List ℚ
  | _, 0, acc, last => (Except.error last, acc)
  | attempt, fuel + 1, acc, _ =>
    match fn attempt with
    | Except.ok v => (Except.ok v, acc)
    | Except.error e =>
        if shouldRetryJudge o e (attempt + 1) then
          retryLoop fn o js (attempt + 1) fuel
            (acc ++ [calculateDelay (attempt + 1) o (js (attempt + 1))]) (some e)
        else (Except.error (some e), acc)

/-- `RetryService.withRetry` on fully-merged options. -/
def withRetryRun {α : Type} (fn : Nat → Except ErrKind α) (o : RetryOptions) (js : Nat → ℚ) :
    Except (Option ErrKind) α × List ℚ :=
  retryLoop fn o js 0 (o.maxRetries + 1) [] none

/-- The options of the retry-backoff scenario:
`{maxRetries: 3, delay: 1000, multiplier: 2}` merged with the defaults. -/
def backoffScenarioOptions : RetryOptions :=
  { defaultRetryOptions with maxRetries := 3, retryDelay := 1000, retryMultiplier := 2 }

/-- How a caller-visible future was settled. -/
inductive Outcome
  | resolved
  | rejected (kind : ErrKind) (msg : String)
  deriving DecidableEq, Repr

/-- `QueuedTranslationRequest` of `TranslationService.ts` (the `resolve`,
`reject` and `timeoutId` fields are represented by the `settled` log of
the scheduler state and the explicit timeout transition). -/
structure QueuedReq where
  id : String
  text : String
  sourceLanguage : String
  targetLanguage : String
  priority : Int
  timestamp : Nat
  timeoutMs : Nat
  deriving DecidableEq, Repr

/-- The mutable state of `TranslationService` that the scheduler claims
are about, plus two observation logs: `envelopesSent` records the ids of
`translate` envelopes posted to the worker, in order, and `settled`
records every settlement of a caller future, in order.
`workerGeneration` counts worker re-creations.  The service is taken to
be initialized (`isInitialized = true`), so the synchronous part of
`executeTranslation` runs to the `postMessage` in one step. -/
structure SchedulerState where
  requestQueue : List QueuedReq
  activeRequests : List String
  isProcessingQueue : Bool
  maxConcurrentRequests : Nat
  requestMap : List String
  envelopesSent : List String
  settled : List (String × Outcome)
  workerGeneration : Nat
  deriving DecidableEq, Repr

/-- Fresh initialized service with the given concurrency limit. -/
def initScheduler (maxConcurrent : Nat) : SchedulerState :=
  { requestQueue := [], activeRequests := [], isProcessingQueue := false,
    maxConcurrentRequests := maxConcurrent, requestMap := [],
    envelopesSent := [], settled := [], workerGeneration := 0 }

/-- Stable insertion of a request into a queue sorted by the comparator
of `queueTranslationRequest`: higher priority first, then older
timestamp first; an element equal on both keys stays behind the ones
already present (JavaScript `Array.prototype.sort` is stable). -/
def insertReq (r : QueuedReq) : List QueuedReq → List QueuedReq
  | [] => [r]
  | x :: xs =>
      if x.priority < r.priority ∨ (r.priority = x.priority ∧ r.timestamp < x.timestamp) then
        r :: x :: xs
      else x :: insertReq r xs

/-- The `requestQueue.sort` comparator applied as a stable sort:
elements are inserted left to right, each placed after every element it
does not strictly precede. -/
def sortQueue (l : List QueuedReq) : List QueuedReq :=
  l.foldl (fun acc x => insertReq x acc) []

/-- The synchronous body of `executeTranslation` on an initialized
service: store the response callbacks in `requestMap` and post the
`translate` envelope; inside `processQueue` the id was just added to
`activeRequests`. -/
def dispatchReq (st : SchedulerState) (r : QueuedReq) : SchedulerState :=
  { st with activeRequests := setAdd st.activeRequests r.id,
            requestMap := setAdd st.requestMap r.id,
            envelopesSent := st.envelopesSent ++ [r.id] }

/-- The `while (queue.length > 0 && active.size < maxConcurrent)` loop of
`processQueue`.  The loop body is synchronous (the `.finally`
continuation of `executeTranslation` is a separate transition), so the
whole loop is one step; the fuel is the initial queue length, which the
loop never increases. -/
def processLoop : Nat → SchedulerState → SchedulerState
  | 0, st => st
  | fuel + 1, st =>
    match st.requestQueue with
    | [] => st
    | r :: rest =>
        if st.activeRequests.length < st.maxConcurrentRequests then
          processLoop fuel (dispatchReq { st with requestQueue := rest } r)
        else st

/-- `TranslationService.processQueue`: return immediately when already
processing or the queue is empty; otherwise set `isProcessingQueue`, run
the dispatch loop, and in the `finally` clear the flag only when the
active set ended up empty. -/
def processQueue (st : SchedulerState) : SchedulerState :=
  if st.isProcessingQueue ∨ st.requestQueue.isEmpty then st
  else
    let st1 := processLoop st.requestQueue.length { st with isProcessingQueue := true }
    if st1.activeRequests.isEmpty then { st1 with isProcessingQueue := false } else st1

/-- `options?.timeout || this.serviceConfig.timeout || 60000` of
`queueTranslationRequest`. -/
def computeTimeoutMs (optTimeout : Option Nat) (cfgTimeout : Option Nat) : Nat :=
  jsOrNat optTimeout (jsOrNat cfgTimeout 60000)

/-- `TranslationService.queueTranslationRequest`: push the request, sort
the queue by (priority desc, timestamp asc), and start processing only
when `isProcessingQueue` is not already set. -/
def submitReq (st : SchedulerState) (r : QueuedReq) : SchedulerState :=
  let st1 := { st with requestQueue := sortQueue (st.requestQueue ++ [r]) }
  if st1.isProcessingQueue then st1 else processQueue st1

/-- `TranslationService.translate` on an initialized service: no
validation of the text or of the language pair is performed; the request
is handed straight to `queueTranslationRequest` with priority
`options?.priority || 1` and timeout
`options?.timeout || serviceConfig.timeout || 60000`. -/
def translateSubmit (st : SchedulerState) (cfgTimeout : Option Nat)
    (id text src tgt : String) (optTimeout : Option Nat) (optPriority : Option Int)
    (now : Nat) : SchedulerState :=
  submitReq st
    { id := id, text := text, sourceLanguage := src, targetLanguage := tgt,
      priority := jsOrInt optPriority 1, timestamp := now,
      timeoutMs := computeTimeoutMs optTimeout cfgTimeout }

/-- The `.finally` continuation attached to `executeTranslation` inside
`processQueue` (a micro-task): remove the id from the active set and,
when the queue is non-empty, call `processQueue` again. -/
def finalizeDispatch (st : SchedulerState) (id : String) : SchedulerState :=
  let st1 := { st with activeRequests := setDelete st.activeRequests id }
  if st1.requestQueue.isEmpty then st1 else processQueue st1

/-- Arrival of a `result` envelope for `id` (`handleWorkerMessage`,
`RESULT` case): resolve and drop the pending entry when one exists. -/
def workerResult (st : SchedulerState) (id : String) : SchedulerState :=
  if id ∈ st.requestMap then
    { st with requestMap := setDelete st.requestMap id,
              settled := st.settled ++ [(id, Outcome.resolved)] }
  else st

/-- Arrival of an `error` envelope for `id` (`handleWorkerMessage`,
`ERROR` case). -/
def workerErrorMsg (st : SchedulerState) (id : String) (k : ErrKind) (msg : String) :
    SchedulerState :=
  if id ∈ st.requestMap then
    { st with requestMap := setDelete st.requestMap id,
              settled := st.settled ++ [(id, Outcome.rejected k msg)] }
  else st

/-- The `setTimeout` callback created by `queueTranslationRequest`,
firing `timeoutMs` after enqueue when no worker response cleared it:
remove the request from the queue, remove it from the active set, and
reject its future with `TRANSLATION_TIMEOUT`. -/
def timeoutFire (st : SchedulerState) (id : String) : SchedulerState :=
  { st with requestQueue := st.requestQueue.filter (fun q => q.id ≠ id),
            activeRequests := setDelete st.activeRequests id,
            settled := st.settled ++
              [(id, Outcome.rejected ErrKind.TRANSLATION_TIMEOUT
                  "Translation request timed out in queue")] }

/-- `TranslationService.resetService`: reject every queued request with
`createTranslationError(WORKER_ERROR, 'Translation service was reset')`,
clear the queue, clear the active set, clear `isProcessingQueue`, then
`restartWorker(false)` (which destroys the worker — clearing
`requestMap` without settling its futures — and recreates it) and
re-initialization.  Active in-flight requests are not rejected. -/
def resetService (st : SchedulerState) : SchedulerState :=
  let pending := st.requestQueue
  let rejections := pending.map (fun (r : QueuedReq) =>
    (r.id, Outcome.rejected ErrKind.WORKER_ERROR "Translation service was reset"))
  let st1 := { st with
    requestQueue := ([] : List QueuedReq),
    settled := st.settled ++ rejections,
    activeRequests := ([] : List String),
    isProcessingQueue := false }
  { st1 with requestMap := [], workerGeneration := st1.workerGeneration + 1 }

/-- `TranslationService.restartWorker(attemptRecovery = true)`, success
path: snapshot and clear the queue (`pendingQueue`) and snapshot and
clear the active set (`activeRequestIds` — a snapshot the source never
reads again), destroy and recreate the worker (clearing `requestMap`),
then re-enqueue only the queue snapshot through
`queueTranslationRequest` with `priority + 1` and a fresh enqueue
timestamp `now`, and finally call `processQueue` when the queue is
non-empty. -/
def restartRecoverSuccess (st : SchedulerState) (now : Nat) : SchedulerState :=
  let pendingQueue := st.requestQueue
  let st1 := { st with requestQueue := [], activeRequests := [] }
  let st2 := { st1 with requestMap := [], workerGeneration := st1.workerGeneration + 1 }
  let st3 := pendingQueue.foldl
    (fun s r => submitReq s { r with priority := r.priority + 1, timestamp := now }) st2
  if st3.requestQueue.isEmpty then st3 else processQueue st3

/-- `TranslationService.restartWorker(attemptRecovery = true, maxRetries)`
when every restart attempt fails.  Each call — including every recursive
retry — re-snapshots `this.requestQueue` into its own local
`pendingQueue` and clears the queue and the active set at entry, then
destroys and recreates the worker (clearing `requestMap`) and fails in
the re-initialization.  With `maxRetries > 0` it recurses on the emptied
state after the exponential backoff; only at `maxRetries = 0` does the
exhaustion branch reject the CURRENT call's snapshot with the fatal
`WORKER_INITIALIZATION_FAILED` error (and only when that snapshot is
non-empty).  Since the first call already emptied the queue and nothing
restores it on the failure path, every recursive call's snapshot is
empty. -/
def restartFailAllRetries (st : SchedulerState) : Nat → SchedulerState
  | 0 =>
      let pendingQueue := st.requestQueue
      let rejections := pendingQueue.map (fun (r : QueuedReq) =>
        (r.id, Outcome.rejected ErrKind.WORKER_INITIALIZATION_FAILED
          "Failed to restart translation service after multiple attempts"))
      let st1 := { st with requestQueue := [], activeRequests := [], requestMap := [],
                           workerGeneration := st.workerGeneration + 1 }
      { st1 with settled := st1.settled ++ rejections }
  | maxRetries + 1 =>
      let st1 := { st with requestQueue := [], activeRequests := [], requestMap := [],
                           workerGeneration := st.workerGeneration + 1 }
      restartFailAllRetries st1 maxRetries

/-- `TranslationService.cancelTranslation(requestId)`: sends a `cancel`
envelope to the worker; the worker's `handleCancelRequest` runs
`ModelManager.cancelRequest(requestId)` and answers with a `result`
envelope whose payload resolves the call with `payload.cancelled`.
The scheduler's own queue, active set and pending futures are not
consulted and not modified (the temporary `cancel-...` entry in
`requestMap` is added and removed again by the response). -/
def cancelTranslation (st : SchedulerState) (mm : MMState) (requestId : String) :
    SchedulerState × MMState × Bool :=
  match cancelRequest mm requestId with
  | (mm1, found) => (st, mm1, found)

/-- JavaScript's notion of trimmable whitespace, for the characters that
matter here. -/
def isSpaceChar (c : Char) : Bool :=
  c = ' ' ∨ c = '\t' ∨ c = '\n' ∨ c = '\r'

/-- Length of `text.trim()`: the text with leading and trailing
whitespace removed. -/
def trimmedLength (s : String) : Nat :=
  ((s.toList.dropWhile isSpaceChar).reverse.dropWhile isSpaceChar).length

/-- A worker-to-caller response envelope payload. -/
inductive WResponse
  | progress (ptype : String) (value : Nat) (msg : String)
  | result (translatedText : String)
  | error (kind : ErrKind) (msg : String)
  deriving DecidableEq, Repr

/-- The model id `` `Helsinki-NLP/opus-mt-${sourceLanguage}-${targetLanguage}` ``. -/
def modelIdFor (src tgt : String) : String :=
  "Helsinki-NLP/opus-mt-" ++ src ++ "-" ++ tgt

/-- Worker-side `handleTranslateRequest` for a short text, with the
model-loading progress callbacks elided: validate (`INVALID_INPUT` for
falsy or whitespace-only text, `UNSUPPORTED_LANGUAGE_PAIR` when source
equals target) — both checks happen before `getPipeline` is reached —
then resolve the pipeline and report the `translating` progress
sequence 0, 50, 100 followed by the `result`; an `AbortError` from the
load is reported as `TRANSLATION_FAILED` with message
`'Translation was cancelled'`, and a `TranslationException` with its own
type (`MODEL_LOAD_FAILED` for a failed load). -/
def handleTranslateRequest (cfg : MMConfig) (mm : MMState) (id text src tgt : String)
    (out : LoadOutcome) (translated : String) : MMState × List WResponse :=
  if text = "" ∨ trimmedLength text = 0 then
    (mm, [WResponse.error ErrKind.INVALID_INPUT "Translation text cannot be empty"])
  else if src = tgt then
    (mm, [WResponse.error ErrKind.UNSUPPORTED_LANGUAGE_PAIR
        "Source and target languages cannot be the same"])
  else
    let r := getPipeline cfg mm "translation" (modelIdFor src tgt) id out
    match r.2 with
    | Except.ok _ =>
        (r.1, [WResponse.progress "translating" 0 "Starting translation...",
               WResponse.progress "translating" 50 "Translating...",
               WResponse.progress "translating" 100 "Translation complete",
               WResponse.result translated])
    | Except.error MMErr.abortError =>
        (r.1, [WResponse.error ErrKind.TRANSLATION_FAILED "Translation was cancelled"])
    | Except.error MMErr.modelLoadFailed =>
        (r.1, [WResponse.error ErrKind.MODEL_LOAD_FAILED "Failed to load model"])

/-- First request of the concurrency-bound scenario. -/
def c1r1 : QueuedReq :=
  { id := "r1", text := "hello", sourceLanguage := "en", targetLanguage := "fr",
    priority := 1, timestamp := 0, timeoutMs := 30000 }

/-- Second request of the concurrency-bound scenario. -/
def c1r2 : QueuedReq := { c1r1 with id := "r2", timestamp := 1 }

/-- Third request of the concurrency-bound scenario. -/
def c1r3 : QueuedReq := { c1r1 with id := "r3", timestamp := 2 }

/-- Concurrency-bound scenario: three requests submitted in immediate
succession to an initialized service with
`maxConcurrentTranslations = 2`. -/
def c1State : SchedulerState :=
  submitReq (submitReq (submitReq (initScheduler 2) c1r1) c1r2) c1r3

/-- Higher-priority first request of the priority-ordering scenario. -/
def c2r1 : QueuedReq := { c1r1 with id := "b1", priority := 2 }

/-- Lower-priority second request of the priority-ordering scenario. -/
def c2r2 : QueuedReq := { c1r1 with id := "b2", priority := 1, timestamp := 1 }

/-- Priority-ordering scenario with concurrency limit 1: submit the two
requests in priority-descending order, then let the first one's
dispatch continuation run and its worker result arrive. -/
def c2State : SchedulerState :=
  workerResult (finalizeDispatch (submitReq (submitReq (initScheduler 1) c2r1) c2r2) "b1") "b1"

/-- First request of the cancellation scenario (dispatched). -/
def c3rA : QueuedReq := { c1r1 with id := "rA" }

/-- Second request of the cancellation scenario (still queued). -/
def c3rQ : QueuedReq := { c1r1 with id := "rq1", timestamp := 1 }

/-- Cancellation scenario: limit 1, `rA` dispatched, `rq1` queued. -/
def c3State : SchedulerState :=
  submitReq (submitReq (initScheduler 1) c3rA) c3rQ

/-- A queued request for the recovery scenario. -/
def c7r2 : QueuedReq := { c1r1 with id := "r2", timestamp := 1 }

/-- Another queued request for the recovery scenario. -/
def c7r3 : QueuedReq := { c1r1 with id := "r3", timestamp := 2 }

/-- Recovery scenario: a crash is observed while `r1` is dispatched
(active, with a pending worker correspondence) and `r2`, `r3` are
queued. -/
def c7State : SchedulerState :=
  { requestQueue := [c7r2, c7r3], activeRequests := ["r1"], isProcessingQueue := true,
    maxConcurrentRequests := 1, requestMap := ["r1"], envelopesSent := ["r1"],
    settled := [], workerGeneration := 0 }

/-- Reset scenario: `r1` queued, `r2` dispatched (active, pending). -/
def c8State : SchedulerState :=
  { requestQueue := [c1r1], activeRequests := ["r2"], isProcessingQueue := true,
    maxConcurrentRequests := 1, requestMap := ["r2"], envelopesSent := ["r2"],
    settled := [], workerGeneration := 0 }

/-- Validation scenario: `translate` is called with empty text on an
initialized idle service (limit 1, configured timeout 30000). -/
def c9State : SchedulerState :=
  translateSubmit (initScheduler 1) (some 30000) "t1" "" "en" "fr" none none 0

/-- `mapSet` grows the association list by at most one entry. -/
theorem mapSet_length_le {α : Type} (m : List (String × α)) (k : String) (v : α) :
    (mapSet m k v).length ≤ m.length + 1 := by
  unfold mapSet
  split
  · simp
  · simp

/-- Deleting the key of the head entry drops at least that entry. -/
theorem mapDelete_head_length {α : Type} (k0 : String) (v0 : α) (rest : List (String × α)) :
    (mapDelete ((k0, v0) :: rest) k0).length ≤ rest.length := by
  unfold mapDelete
  simp only [List.filter_cons]
  split
  · simp_all
  · exact List.length_filter_le _ _

/-- `addToCache` preserves the bound `maxCacheSize` on the cache size
whenever the configuration carries `maxCacheSize = some k` with
`1 ≤ k`. -/
theorem addToCache_length_bound (cfg : MMConfig) (k : Nat) (hk : cfg.maxCacheSize = some k)
    (h1 : 1 ≤ k) (pipelines : List (String × Nat)) (key : String) (v : Nat)
    (h : pipelines.length ≤ k) : (addToCache cfg pipelines key v).length ≤ k := by
  unfold addToCache
  split
  · next hguard =>
      match pipelines, h with
      | [], h =>
          exfalso
          have hle : k ≤ 0 := by simpa [hk] using hguard.2
          omega
      | (k0, v0) :: rest, h =>
          calc (mapSet (mapDelete ((k0, v0) :: rest) k0) key v).length
              ≤ (mapDelete ((k0, v0) :: rest) k0).length + 1 := mapSet_length_le _ _ _
            _ ≤ rest.length + 1 := by
                  exact Nat.add_le_add_right (mapDelete_head_length k0 v0 rest) 1
            _ = ((k0, v0) :: rest).length := by simp
            _ ≤ k := h
  · next hguard =>
      have htr : jsTruthyNat cfg.maxCacheSize = true := by
        simp only [jsTruthyNat, hk, Option.getD_some, ne_eq, decide_eq_true_eq]
        omega
      have hlt : pipelines.length < k := by
        by_contra hge
        exact hguard ⟨htr, by rw [hk]; simp only [Option.getD_some]; omega⟩
      calc (mapSet pipelines key v).length ≤ pipelines.length + 1 := mapSet_length_le _ _ _
        _ ≤ k := by omega

/-- `getPipeline` preserves the cache-size bound. -/
theorem getPipeline_cache_bound (cfg : MMConfig) (k : Nat) (hk : cfg.maxCacheSize = some k)
    (h1 : 1 ≤ k) (st : MMState) (t m r : String) (o : LoadOutcome)
    (h : getCacheSize st ≤ k) : getCacheSize ((getPipeline cfg st t m r o).1) ≤ k := by
  unfold getCacheSize at *
  by_cases hcache : mapHas st.pipelines (pipelineKey t m cfg.quantized) = true ∧
      cfg.cacheModels = true
  · simpa [getPipeline, hcache] using h
  · cases o with
    | success v =>
        by_cases hc : cfg.cacheModels = true
        · have hmiss : mapHas st.pipelines (pipelineKey t m cfg.quantized) = false := by
            rcases Bool.eq_false_or_eq_true (mapHas st.pipelines (pipelineKey t m cfg.quantized))
              with h0 | h0
            · exact absurd ⟨h0, hc⟩ hcache
            · exact h0
          simpa [getPipeline, hmiss, hc] using
            addToCache_length_bound cfg k hk h1 st.pipelines (pipelineKey t m cfg.quantized) v h
        · simpa [getPipeline, hcache, hc] using h
    | aborted => simpa [getPipeline, hcache] using h
    | failure => simpa [getPipeline, hcache] using h

/-- Every cache operation preserves the cache-size bound. -/
theorem applyCacheOp_bound (cfg : MMConfig) (k : Nat) (hk : cfg.maxCacheSize = some k)
    (h1 : 1 ≤ k) (st : MMState) (op : CacheOp)
    (h : getCacheSize st ≤ k) : getCacheSize (applyCacheOp cfg st op) ≤ k := by
  match op with
  | .getP t m r o => exact getPipeline_cache_bound cfg k hk h1 st t m r o h
  | .remove t m =>
      unfold applyCacheOp removeFromCache getCacheSize at *
      exact le_trans (List.length_filter_le _ _) h
  | .clear =>
      unfold applyCacheOp clearCache getCacheSize
      simp

/-- Auxiliary induction for the cache-size invariant. -/
theorem applyCacheOps_bound (cfg : MMConfig) (k : Nat) (hk : cfg.maxCacheSize = some k)
    (h1 : 1 ≤ k) (ops : List CacheOp) : ∀ st : MMState, getCacheSize st ≤ k →
    getCacheSize (applyCacheOps cfg ops st) ≤ k := by
  induction ops with
  | nil => intro st h; exact h
  | cons op rest ih =>
      intro st h
      unfold applyCacheOps at *
      simp only [List.foldl_cons]
      exact ih _ (applyCacheOp_bound cfg k hk h1 st op h)

/-- C10: starting from an empty cache under a fixed configuration with
`maxCacheSize = k ≥ 1`, after any sequence of `getPipeline`,
`removeFromCache` and `clearCache` operations the number of cached
pipelines (`getCacheSize`) never exceeds `k`. -/
theorem C10_cache_size_invariant (cfg : MMConfig) (k : Nat) (hk : cfg.maxCacheSize = some k)
    (h1 : 1 ≤ k) (ops : List CacheOp) :
    getCacheSize (applyCacheOps cfg ops mmInit) ≤ k :=
  applyCacheOps_bound cfg k hk h1 ops mmInit (by simp [mmInit, getCacheSize])

/-- Witness for C10 at a concrete configuration and operation
sequence. -/
theorem C10_cache_size_invariant_witness :
    getCacheSize (applyCacheOps { cacheModels := true, quantized := true, maxCacheSize := some 1 }
      [CacheOp.getP "translation" "A" "ra" (LoadOutcome.success 1),
       CacheOp.getP "translation" "B" "rb" (LoadOutcome.success 2),
       CacheOp.remove "translation" "A",
       CacheOp.clear] mmInit) ≤ 1 :=
  C10_cache_size_invariant _ 1 rfl (by decide) _

/-- A `getPipeline` call that hits the cache (key present, caching
enabled) leaves the `pipelines` map unchanged: reads never reorder or
refresh entries. -/
theorem getPipeline_pipelines_hit (cfg : MMConfig) (st : MMState) (t m r : String)
    (o : LoadOutcome) (hc : cfg.cacheModels = true)
    (h : mapHas st.pipelines (pipelineKey t m cfg.quantized) = true) :
    ((getPipeline cfg st t m r o).1).pipelines = st.pipelines := by
  simp [getPipeline, h, hc]

/-- A `getPipeline` call that misses the cache and loads successfully
replaces the `pipelines` map by `addToCache` of the loaded value. -/
theorem getPipeline_pipelines_miss (cfg : MMConfig) (st : MMState) (t m r : String) (v : Nat)
    (hc : cfg.cacheModels = true)
    (h : mapHas st.pipelines (pipelineKey t m cfg.quantized) = false) :
    ((getPipeline cfg st t m r (LoadOutcome.success v)).1).pipelines
      = addToCache cfg st.pipelines (pipelineKey t m cfg.quantized) v := by
  simp [getPipeline, h, hc]

/-- Any sequence of `getPipeline` calls whose keys are all already cached
leaves the `pipelines` map unchanged. -/
theorem runCalls_pipelines_hit (cfg : MMConfig) (hc : cfg.cacheModels = true) :
    ∀ (calls : List GPCall) (st : MMState),
    (∀ c ∈ calls, mapHas st.pipelines (pipelineKey c.task c.model cfg.quantized) = true) →
    (runCalls cfg calls st).pipelines = st.pipelines := by
  intro calls
  induction calls with
  | nil => intro st _; rfl
  | cons c cs ih =>
      intro st h
      have h1 : mapHas st.pipelines (pipelineKey c.task c.model cfg.quantized) = true :=
        h c (List.mem_cons_self c cs)
      have e1 : ((getPipeline cfg st c.task c.model c.requestId c.out).1).pipelines
          = st.pipelines := getPipeline_pipelines_hit cfg st c.task c.model c.requestId c.out hc h1
      unfold runCalls at *
      simp only [List.foldl_cons]
      rw [ih ((getPipeline cfg st c.task c.model c.requestId c.out).1)]
      · exact e1
      · intro d hd
        rw [e1]
        exact h d (List.mem_cons_of_mem c hd)

/-- C5: with `maxCacheSize = 2` and caching enabled, loading three
distinct keys A, B, C in that order — with arbitrary interleaved
cache-hit reads of the already-loaded keys — evicts exactly A upon C's
insertion, leaving the cache `[B, C]` in insertion order: the policy is
FIFO on insertion age, not LRU on access recency. -/
theorem C5_fifo_eviction (cfg : MMConfig) (hc : cfg.cacheModels = true)
    (hmax : cfg.maxCacheSize = some 2)
    (tA mA tB mB tC mC ridA ridB ridC : String) (vA vB vC : Nat)
    (kA kB kC : String)
    (hkA : pipelineKey tA mA cfg.quantized = kA)
    (hkB : pipelineKey tB mB cfg.quantized = kB)
    (hkC : pipelineKey tC mC cfg.quantized = kC)
    (hAB : kA ≠ kB) (hAC : kA ≠ kC) (hBC : kB ≠ kC)
    (reads1 reads2 : List GPCall)
    (hr1 : ∀ c ∈ reads1, pipelineKey c.task c.model cfg.quantized = kA)
    (hr2 : ∀ c ∈ reads2, pipelineKey c.task c.model cfg.quantized = kA ∨
        pipelineKey c.task c.model cfg.quantized = kB) :
    ((getPipeline cfg
        (runCalls cfg reads2
          ((getPipeline cfg
              (runCalls cfg reads1
                ((getPipeline cfg mmInit tA mA ridA (LoadOutcome.success vA)).1))
              tB mB ridB (LoadOutcome.success vB)).1))
        tC mC ridC (LoadOutcome.success vC)).1).pipelines = [(kB, vB), (kC, vC)] := by
  have e1 : ((getPipeline cfg mmInit tA mA ridA (LoadOutcome.success vA)).1).pipelines
      = [(kA, vA)] := by
    rw [getPipeline_pipelines_miss cfg mmInit tA mA ridA vA hc (by simp [mmInit, mapHas]), hkA]
    simp [addToCache, mapSet, mapHas, mmInit, hmax, jsTruthyNat]
  have e2 : (runCalls cfg reads1
      ((getPipeline cfg mmInit tA mA ridA (LoadOutcome.success vA)).1)).pipelines
      = [(kA, vA)] := by
    rw [runCalls_pipelines_hit cfg hc reads1 _ ?_, e1]
    intro c hcm
    rw [e1, hr1 c hcm]
    simp [mapHas]
  have e3 : ((getPipeline cfg (runCalls cfg reads1
      ((getPipeline cfg mmInit tA mA ridA (LoadOutcome.success vA)).1))
      tB mB ridB (LoadOutcome.success vB)).1).pipelines = [(kA, vA), (kB, vB)] := by
    rw [getPipeline_pipelines_miss cfg _ tB mB ridB vB hc ?_, e2, hkB]
    · simp [addToCache, mapSet, mapHas, hmax, jsTruthyNat, hAB, Ne.symm hAB]
    · rw [e2, hkB]
      simp [mapHas, hAB, Ne.symm hAB]
  have e4 : (runCalls cfg reads2 ((getPipeline cfg (runCalls cfg reads1
      ((getPipeline cfg mmInit tA mA ridA (LoadOutcome.success vA)).1))
      tB mB ridB (LoadOutcome.success vB)).1)).pipelines = [(kA, vA), (kB, vB)] := by
    rw [runCalls_pipelines_hit cfg hc reads2 _ ?_, e3]
    intro c hcm
    rw [e3]
    rcases hr2 c hcm with h0 | h0 <;> rw [h0] <;> simp [mapHas]
  rw [getPipeline_pipelines_miss cfg _ tC mC ridC vC hc ?_, e4, hkC]
  · simp [addToCache, mapSet, mapHas, mapDelete, hmax, jsTruthyNat, Ne.symm hAC, Ne.symm hBC,
      Ne.symm hAB, hAB, hAC, hBC]
  · rw [e4, hkC]
    simp [mapHas, hAC, hBC, Ne.symm hAC, Ne.symm hBC]

/-- Witness for C5 at concrete keys, with A read after B was loaded and
B read again right before C's insertion. -/
theorem C5_fifo_eviction_witness :
    ((getPipeline { cacheModels := true, quantized := true, maxCacheSize := some 2 }
        (runCalls { cacheModels := true, quantized := true, maxCacheSize := some 2 }
          [⟨"translation", "A", "r4", LoadOutcome.failure⟩,
           ⟨"translation", "B", "r5", LoadOutcome.failure⟩]
          ((getPipeline { cacheModels := true, quantized := true, maxCacheSize := some 2 }
              (runCalls { cacheModels := true, quantized := true, maxCacheSize := some 2 }
                [⟨"translation", "A", "r3", LoadOutcome.failure⟩]
                ((getPipeline { cacheModels := true, quantized := true, maxCacheSize := some 2 }
                    mmInit "translation" "A" "r0" (LoadOutcome.success 10)).1))
              "translation" "B" "r1" (LoadOutcome.success 20)).1))
        "translation" "C" "r2" (LoadOutcome.success 30)).1).pipelines
      = [("translation-B-quantized", 20), ("translation-C-quantized", 30)] := by
  exact C5_fifo_eviction { cacheModels := true, quantized := true, maxCacheSize := some 2 }
    rfl rfl "translation" "A" "translation" "B" "translation" "C"
    "r0" "r1" "r2" 10 20 30
    "translation-A-quantized" "translation-B-quantized" "translation-C-quantized"
    (by decide) (by decide) (by decide) (by decide) (by decide) (by decide) _ _
    (by intro c hcm; fin_cases hcm; decide)
    (by intro c hcm; fin_cases hcm <;> simp [pipelineKey])

/-- C6: under `withRetry` with merged options `{maxRetries: 3,
retryDelay: 1000, retryMultiplier: 2, maxDelay: 10000}`, an operation
that always fails with a retryable error is retried with waits of
exactly `1000 + jitter`, `2000 + jitter` and `4000 + jitter`
milliseconds (each the uncapped `min(delay * 2^(k-1) + jitter, maxDelay)`
since the jitter is below 300), and after the attempts are exhausted the
call rejects with the last error; in general the wait before the k-th
retry is `min(retryDelay * retryMultiplier^(k-1) + jitter, maxDelay)`. -/
theorem C6_retry_backoff (js : Nat → ℚ) (hj : ∀ k, 0 ≤ js k ∧ js k < 300)
    (e : ErrKind) (he : isErrorRecoverable e = true) :
    withRetryRun (fun _ => (Except.error e : Except ErrKind Nat)) backoffScenarioOptions js
      = (Except.error (some e), [1000 + js 1, 2000 + js 2, 4000 + js 3]) ∧
    (∀ (o : RetryOptions) (k : Nat) (j d : ℚ), o.maxDelay = some d → d ≠ 0 →
      calculateDelay k o j = min (o.retryDelay * o.retryMultiplier ^ (k - 1) + j) d) := by
  constructor
  · have d1 : calculateDelay 1 backoffScenarioOptions (js 1) = 1000 + js 1 := by
      have hb := (hj 1).2
      unfold calculateDelay backoffScenarioOptions defaultRetryOptions jsOrRat
      norm_num
      linarith
    have d2 : calculateDelay 2 backoffScenarioOptions (js 2) = 2000 + js 2 := by
      have hb := (hj 2).2
      unfold calculateDelay backoffScenarioOptions defaultRetryOptions jsOrRat
      norm_num
      linarith
    have d3 : calculateDelay 3 backoffScenarioOptions (js 3) = 4000 + js 3 := by
      have hb := (hj 3).2
      unfold calculateDelay backoffScenarioOptions defaultRetryOptions jsOrRat
      norm_num
      linarith
    have main : withRetryRun (fun _ => (Except.error e : Except ErrKind Nat))
        backoffScenarioOptions js
        = (Except.error (some e),
           [calculateDelay 1 backoffScenarioOptions (js 1),
            calculateDelay 2 backoffScenarioOptions (js 2),
            calculateDelay 3 backoffScenarioOptions (js 3)]) := by
      simp [withRetryRun, retryLoop, shouldRetryJudge, backoffScenarioOptions,
        defaultRetryOptions, he]
    rw [main, d1, d2, d3]
  · intro o k j d hd hd0
    unfold calculateDelay jsOrRat
    rw [hd]
    simp [hd0]

/-- Witness for C6 with zero jitter and a `WORKER_ERROR` failure. -/
theorem C6_retry_backoff_witness :
    withRetryRun (fun _ => (Except.error ErrKind.WORKER_ERROR : Except ErrKind Nat))
        backoffScenarioOptions (fun _ => 0)
      = (Except.error (some ErrKind.WORKER_ERROR), [1000, 2000, 4000]) ∧
    calculateDelay 2 backoffScenarioOptions 0 = min (1000 * 2 ^ 1 + 0) 10000 := by
  have h := C6_retry_backoff (fun _ => 0) (fun k => ⟨le_refl 0, by norm_num⟩)
    ErrKind.WORKER_ERROR rfl
  constructor
  · have h1 := h.1
    norm_num at h1
    exact h1
  · have h2 := h.2 backoffScenarioOptions 2 0 10000 rfl (by norm_num)
    simpa [backoffScenarioOptions, defaultRetryOptions] using h2

/-- C4: the timeout callback registered by `queueTranslationRequest`
removes the request from both the queue and the active set and rejects
its future with the `TRANSLATION_TIMEOUT` error, and the scheduled
duration is the per-request override when one is given, else the
configured service default. -/
theorem C4_timeout_rejection (st : SchedulerState) (id : String) (t d : Nat)
    (ht : t ≠ 0) (hd : d ≠ 0) :
    (∀ q ∈ (timeoutFire st id).requestQueue, q.id ≠ id) ∧
    id ∉ (timeoutFire st id).activeRequests ∧
    (timeoutFire st id).settled = st.settled ++
      [(id, Outcome.rejected ErrKind.TRANSLATION_TIMEOUT
          "Translation request timed out in queue")] ∧
    computeTimeoutMs (some t) (some d) = t ∧
    computeTimeoutMs none (some d) = d := by
  refine ⟨?_, ?_, rfl, ?_, ?_⟩
  · intro q hq
    have := List.of_mem_filter hq
    simpa using this
  · intro hmem
    unfold timeoutFire setDelete at hmem
    have := List.of_mem_filter hmem
    simp at this
  · simp [computeTimeoutMs, jsOrNat, ht]
  · simp [computeTimeoutMs, jsOrNat, hd]

/-- Witness for C4 at a concrete state and concrete timeouts. -/
theorem C4_timeout_rejection_witness :
    "x" ∉ (timeoutFire (initScheduler 1) "x").activeRequests ∧
    computeTimeoutMs (some 5000) (some 30000) = 5000 ∧
    computeTimeoutMs none (some 30000) = 30000 := by
  have h := C4_timeout_rejection (initScheduler 1) "x" 5000 30000 (by decide) (by decide)
  exact ⟨h.2.1, h.2.2.2.1, h.2.2.2.2⟩

/-- C1 (failing evaluation): with `maxConcurrentTranslations = 2`, three
translate submissions in immediate succession result in only ONE
`translate` envelope sent and TWO requests queued — not two dispatched
and one queued as the claim requires.  `processQueue` sets
`isProcessingQueue` on the first dispatch and only clears it when its
loop ends with an empty active set, so the later submissions skip
processing, and the refill call in the dispatch continuation
(`finalizeDispatch`) returns immediately on the same flag: the envelope
log still holds the single id afterwards. -/
theorem C1_concurrency_dispatch_eval :
    c1State.envelopesSent = ["r1"] ∧
    c1State.requestQueue.map (fun q => q.id) = ["r2", "r3"] ∧
    c1State.activeRequests = ["r1"] ∧
    c1State.isProcessingQueue = true ∧
    (finalizeDispatch c1State "r1").envelopesSent = ["r1"] ∧
    (finalizeDispatch c1State "r1").requestQueue.map (fun q => q.id) = ["r2", "r3"] := by
  decide

/-- C2 (failing evaluation): with a concurrency limit of 1 and two
requests submitted in priority-descending order (`b1` with priority 2,
then `b2` with priority 1), the claimed dispatch order is `[b1, b2]`;
the code sends only the `b1` envelope, and even after `b1`'s dispatch
continuation runs and its worker result arrives, `b2` is still queued
and no second envelope has been sent. -/
theorem C2_priority_dispatch_eval :
    c2State.envelopesSent = ["b1"] ∧
    c2State.requestQueue.map (fun q => q.id) = ["b2"] ∧
    c2State.settled = [("b1", Outcome.resolved)] ∧
    c2State.activeRequests = [] := by
  decide

/-- C7 (failing evaluation): with requests `r2`, `r3` queued and `r1`
active at restart time, the recovery success path re-enqueues only the
queue snapshot — `r2` and `r3`, with priority raised from 1 to 2 — and
`r1` appears nowhere in the recovered queue (its id snapshot
`activeRequestIds` is never read again).  When every restart attempt
fails under the default `maxRetries = 3`, NO request is rejected with
`WORKER_INITIALIZATION_FAILED` at all: each recursive retry
re-snapshots the queue that the first call already emptied, so the
exhaustion branch sees an empty `pendingQueue` and `r1`, `r2` and `r3`
are all dropped without any settlement.  Even a direct exhausted call
(`maxRetries = 0`) would reject only the queue snapshot `r2`, `r3` —
never the active `r1`. -/
theorem C7_recovery_drops_requests_eval :
    (restartRecoverSuccess c7State 100).requestQueue.map (fun q => (q.id, q.priority))
      = [("r2", 2), ("r3", 2)] ∧
    ((restartRecoverSuccess c7State 100).requestQueue.map (fun q => q.id)).contains "r1"
      = false ∧
    (restartFailAllRetries c7State 3).settled = [] ∧
    (restartFailAllRetries c7State 0).settled.map (fun p => p.1) = ["r2", "r3"] := by
  decide

/-- C3 (counterexample): `rq1` is still queued (never dispatched), yet
`cancelTranslation` resolves with `false` — the worker has no abort
controller for it — the queue still contains `rq1` afterwards, and no
future was rejected; the claim requires `true`, removal from the queue,
and a rejection with a `CANCELLED` error (a kind that does not even
exist in `TranslationErrorType`). -/
theorem C3_cancel_queued_counterexample :
    (cancelTranslation c3State mmInit "rq1").2.2 = false ∧
    (cancelTranslation c3State mmInit "rq1").1 = c3State ∧
    c3State.requestQueue.map (fun q => q.id) = ["rq1"] ∧
    (cancelTranslation c3State mmInit "rq1").1.settled = [] := by
  decide

/-- C8 (counterexample): resetting a service with `r1` queued and `r2`
active settles exactly one future — `r1`, rejected with
`WORKER_ERROR`/`'Translation service was reset'` (no `RESET` kind exists
in `TranslationErrorType`) — while the active request `r2` is cleared
from the active set without any rejection, contradicting "rejects every
queued and every active request with a RESET error". -/
theorem C8_reset_counterexample :
    (resetService c8State).settled
      = [("r1", Outcome.rejected ErrKind.WORKER_ERROR "Translation service was reset")] ∧
    (resetService c8State).requestQueue = [] ∧
    (resetService c8State).activeRequests = [] ∧
    (resetService c8State).workerGeneration = 1 := by
  decide

/-- C9 (counterexample): calling `translate` with empty text raises
nothing synchronously: the empty-text request is queued and immediately
dispatched to the worker (one `translate` envelope, a pending entry, no
settled future), contradicting "raised synchronously before the request
is placed into the queue". -/
theorem C9_no_sync_validation_counterexample :
    c9State.settled = [] ∧
    c9State.envelopesSent = ["t1"] ∧
    c9State.requestMap = ["t1"] := by
  decide

/-- A cancel for an id without a registered abort controller resolves
with `false`. -/
theorem cancelTranslation_not_found (st : SchedulerState) (mm : MMState) (id : String)
    (h : id ∉ mm.activeRequests) : (cancelTranslation st mm id).2.2 = false := by
  unfold cancelTranslation cancelRequest
  simp [h]

/-- After a cancel, the worker holds no abort controller for the id. -/
theorem cancelTranslation_removes (st : SchedulerState) (mm : MMState) (id : String) :
    id ∉ ((cancelTranslation st mm id).2.1).activeRequests := by
  unfold cancelTranslation cancelRequest
  by_cases h : id ∈ mm.activeRequests <;> simp [h, setDelete]

/-- C3 (amended): `cancelTranslation(id)` resolves with whether the
worker holds an active abort controller for `id` (an in-flight model
load); a request still queued on the caller side is not found, the
scheduler state — queue and settled futures — is left untouched in every
case; cancelling the same in-flight request twice yields `true` then
`false`; and an aborted load's future is rejected (once, by the single
error envelope) with `TRANSLATION_FAILED` / `'Translation was
cancelled'` — not with a `CANCELLED` kind, which does not exist. -/
theorem C3_cancel_amended :
    (∀ (st : SchedulerState) (mm : MMState) (id : String),
      ((cancelTranslation st mm id).2.2 = true ↔ id ∈ mm.activeRequests)) ∧
    (∀ (st : SchedulerState) (mm : MMState) (id : String),
      (cancelTranslation st mm id).1 = st) ∧
    (∀ (st : SchedulerState) (mm : MMState) (id : String), id ∈ mm.activeRequests →
      (cancelTranslation st mm id).2.2 = true ∧
      (cancelTranslation st (cancelTranslation st mm id).2.1 id).2.2 = false) ∧
    (∀ (cfg : MMConfig) (mm : MMState) (id text src tgt tr : String),
      text ≠ "" → trimmedLength text ≠ 0 → src ≠ tgt →
      mapHas mm.pipelines (pipelineKey "translation" (modelIdFor src tgt) cfg.quantized)
        = false →
      (handleTranslateRequest cfg mm id text src tgt LoadOutcome.aborted tr).2
        = [WResponse.error ErrKind.TRANSLATION_FAILED "Translation was cancelled"]) := by
  refine ⟨?_, ?_, ?_, ?_⟩
  · intro st mm id
    unfold cancelTranslation cancelRequest
    by_cases h : id ∈ mm.activeRequests <;> simp [h]
  · intro st mm id
    unfold cancelTranslation cancelRequest
    by_cases h : id ∈ mm.activeRequests <;> simp [h]
  · intro st mm id h
    refine ⟨?_, cancelTranslation_not_found st _ id (cancelTranslation_removes st mm id)⟩
    unfold cancelTranslation cancelRequest
    simp [h]
  · intro cfg mm id text src tgt tr ht1 ht2 hne hmiss
    unfold modelIdFor at hmiss
    unfold handleTranslateRequest modelIdFor
    simp [getPipeline, hmiss, ht1, ht2, hne]

/-- Witness for the amended C3: a double cancel of an in-flight load and
an aborted load's error envelope, at concrete inputs. -/
theorem C3_cancel_amended_witness :
    (cancelTranslation (initScheduler 1)
        { pipelines := [], activeRequests := ["m1"], loadingProgress := [] } "m1").2.2
      = true ∧
    (cancelTranslation (initScheduler 1)
        ((cancelTranslation (initScheduler 1)
          { pipelines := [], activeRequests := ["m1"], loadingProgress := [] } "m1").2.1)
        "m1").2.2 = false ∧
    (handleTranslateRequest defaultMMConfig mmInit "w1" "hello" "en" "fr"
        LoadOutcome.aborted "x").2
      = [WResponse.error ErrKind.TRANSLATION_FAILED "Translation was cancelled"] := by
  have h := C3_cancel_amended
  have h3 := h.2.2.1 (initScheduler 1)
    { pipelines := [], activeRequests := ["m1"], loadingProgress := [] } "m1" (by decide)
  exact ⟨h3.1, h3.2,
    h.2.2.2 defaultMMConfig mmInit "w1" "hello" "en" "fr" "x"
      (by decide) (by decide) (by decide) (by decide)⟩

/-- C8 (amended): `resetService` rejects every queued request with the
reset rejection the source actually uses — kind `WORKER_ERROR`, message
`'Translation service was reset'` (`TranslationErrorType` has no `RESET`
member) — clears the queue, the active set, the pending map and the
processing flag, and recreates the worker; but requests already
dispatched (the active set) are not rejected by the reset: no settlement
is added for an active id that is not also in the queue. -/
theorem C8_reset_amended :
    (∀ st : SchedulerState,
      (resetService st).requestQueue = [] ∧
      (resetService st).activeRequests = [] ∧
      (resetService st).requestMap = [] ∧
      (resetService st).isProcessingQueue = false ∧
      (resetService st).workerGeneration = st.workerGeneration + 1) ∧
    (∀ (st : SchedulerState) (r : QueuedReq), r ∈ st.requestQueue →
      (r.id, Outcome.rejected ErrKind.WORKER_ERROR "Translation service was reset")
        ∈ (resetService st).settled) ∧
    (∀ (st : SchedulerState) (id : String), id ∈ st.activeRequests →
      id ∉ st.requestQueue.map (fun q => q.id) →
      ∀ p ∈ (resetService st).settled, p.1 = id → p ∈ st.settled) := by
  refine ⟨?_, ?_, ?_⟩
  · intro st
    exact ⟨rfl, rfl, rfl, rfl, rfl⟩
  · intro st r hr
    unfold resetService
    simp only [List.mem_append]
    right
    exact List.mem_map_of_mem _ hr
  · intro st id _ hnq p hp hpid
    unfold resetService at hp
    simp only [List.mem_append] at hp
    rcases hp with hp | hp
    · exact hp
    · exfalso
      rcases List.mem_map.mp hp with ⟨q, hq, hfq⟩
      apply hnq
      rw [List.mem_map]
      refine ⟨q, hq, ?_⟩
      have : q.id = p.1 := by rw [← hfq]
      rw [this, hpid]

/-- Witness for the amended C8 at the concrete reset scenario. -/
theorem C8_reset_amended_witness :
    (resetService c8State).requestQueue = [] ∧
    ("r1", Outcome.rejected ErrKind.WORKER_ERROR "Translation service was reset")
      ∈ (resetService c8State).settled ∧
    (∀ p ∈ (resetService c8State).settled, p.1 = "r2" → p ∈ c8State.settled) := by
  have h := C8_reset_amended
  exact ⟨(h.1 c8State).1,
    h.2.1 c8State c1r1 (by decide),
    h.2.2 c8State "r2" (by decide) (by decide)⟩

/-- C9 (amended): the validation happens in the worker, after queueing
and dispatch: `handleTranslateRequest` answers empty (or
whitespace-only) text with an `INVALID_INPUT` error envelope and an
equal source/target pair with `UNSUPPORTED_LANGUAGE_PAIR`, in both cases
before any model load (the `ModelManager` state is returned untouched);
and these two kinds are not recoverable, so the default retry predicate
of `RetryService` never retries them. -/
theorem C9_worker_validation_amended :
    (∀ (cfg : MMConfig) (mm : MMState) (id text src tgt tr : String) (out : LoadOutcome),
      text = "" ∨ trimmedLength text = 0 →
      handleTranslateRequest cfg mm id text src tgt out tr
        = (mm, [WResponse.error ErrKind.INVALID_INPUT "Translation text cannot be empty"])) ∧
    (∀ (cfg : MMConfig) (mm : MMState) (id text src tr : String) (out : LoadOutcome),
      text ≠ "" → trimmedLength text ≠ 0 →
      handleTranslateRequest cfg mm id text src src out tr
        = (mm, [WResponse.error ErrKind.UNSUPPORTED_LANGUAGE_PAIR
            "Source and target languages cannot be the same"])) ∧
    isErrorRecoverable ErrKind.INVALID_INPUT = false ∧
    isErrorRecoverable ErrKind.UNSUPPORTED_LANGUAGE_PAIR = false ∧
    (∀ o : RetryOptions, o.shouldRetryFn = none → ∀ a : Nat,
      shouldRetryJudge o ErrKind.INVALID_INPUT a = false ∧
      shouldRetryJudge o ErrKind.UNSUPPORTED_LANGUAGE_PAIR a = false) := by
  refine ⟨?_, ?_, rfl, rfl, ?_⟩
  · intro cfg mm id text src tgt tr out h
    unfold handleTranslateRequest
    rcases h with h | h <;> simp [h]
  · intro cfg mm id text src tr out ht1 ht2
    unfold handleTranslateRequest
    simp [ht1, ht2]
  · intro o hfn a
    unfold shouldRetryJudge
    rw [hfn]
    constructor <;> split <;> simp [isErrorRecoverable]

/-- Witness for the amended C9 at concrete worker inputs. -/
theorem C9_worker_validation_amended_witness :
    handleTranslateRequest defaultMMConfig mmInit "w2" "" "en" "fr"
        (LoadOutcome.success 1) "y"
      = (mmInit, [WResponse.error ErrKind.INVALID_INPUT
          "Translation text cannot be empty"]) ∧
    handleTranslateRequest defaultMMConfig mmInit "w3" "hi" "en" "en"
        (LoadOutcome.success 1) "y"
      = (mmInit, [WResponse.error ErrKind.UNSUPPORTED_LANGUAGE_PAIR
          "Source and target languages cannot be the same"]) ∧
    shouldRetryJudge defaultRetryOptions ErrKind.INVALID_INPUT 1 = false := by
  have h := C9_worker_validation_amended
  exact ⟨h.1 defaultMMConfig mmInit "w2" "" "en" "fr" "y" (LoadOutcome.success 1)
      (Or.inl rfl),
    h.2.1 defaultMMConfig mmInit "w3" "hi" "en" "y" (LoadOutcome.success 1)
      (by decide) (by decide),
    (h.2.2.2.2 defaultRetryOptions rfl 1).1⟩
